import Mathlib

/-!
Verification development for the mongo-essential MCP command-line client
(src/mcp/examples/mcp_client.py).

The client is embedded shallowly:
- JSON values are the inductive `Json`.
- The one piece of external state (the subprocess round trip performed by
  `MCPClient._run_mcp_request`) is abstracted as an oracle
  `Request → TransportOutcome`: the oracle decides, for the request written to
  the subprocess, whether the round trip yields a parsed response, empty
  standard output, a JSON parse error, a missing binary, or another launch
  error.  Everything else in the Python file is deterministic and is
  translated directly.
- Printed lines (stdout and stderr interleaved in program order) are collected
  in `Eff.output`; the requests handed to the transport are collected in
  `Eff.calls`, so theorems can speak about what was printed and which
  transport calls were made.
-/

/-- JSON values, as produced by json.loads in the Python client. -/
inductive Json where
  | null
  | bool (b : Bool)
  | num (n : Int)
  | str (s : String)
  | arr (elems : List Json)
  | obj (fields : List (String × Json))

/-- Python truthiness of a JSON value (`if response ...`): None, False, 0,
empty string, empty list and empty dict are falsy. -/
def pyTruthy : Json → Bool
  | Json.null => false
  | Json.bool b => b
  | Json.num n => n != 0
  | Json.str s => !s.isEmpty
  | Json.arr xs => !xs.isEmpty
  | Json.obj fs => !fs.isEmpty

/-- Python membership test `k in response` for the shapes the client can see.
On a dict it tests key membership, on a list it tests element membership
(a string element can only equal a string).  On other values Python would
raise TypeError; the client only ever applies it to parsed JSON guarded by
truthiness, and every claim concerns mappings, so those cases return false. -/
def pyIn (k : String) : Json → Bool
  | Json.obj fs => fs.any (fun p => p.1 == k)
  | Json.arr xs => xs.any (fun x => match x with | Json.str s => s == k | _ => false)
  | _ => false

/-- Dictionary lookup, `d[k]` on a mapping: the stored value when present. -/
def Json.lookup (j : Json) (k : String) : Option Json :=
  match j with
  | Json.obj fs => (fs.find? (fun p => p.1 == k)).map Prod.snd
  | _ => none

/-- Python `d.get(k, default)` on a mapping. -/
def Json.pyGet (j : Json) (k : String) (d : Json) : Json :=
  match Json.lookup j k with
  | some v => v
  | none => d

/-- `d.get(k, default)` where the client interpolates the value into a
message; the defaults in the client are strings and so are the values in
well-formed responses. -/
def jgetStr (j : Json) (k : String) (d : String) : String :=
  match Json.lookup j k with
  | some (Json.str s) => s
  | some _ => d
  | none => d

/-- The `content` entry of a tool-call result: `result.get('content', [])`,
read as a list of content blocks. -/
def contentList (result : Json) : List Json :=
  match Json.pyGet result "content" (Json.arr []) with
  | Json.arr xs => xs
  | _ => []

/-- A JSON-RPC request as assembled by `_run_mcp_request`:
jsonrpc version, id, method and params. -/
structure Request where
  jsonrpc : String
  id : Nat
  method : String
  params : Json

/-- Session state of `MCPClient`: the configured binary path and the
request-id counter (`self.mcp_binary_path`, `self.request_id`). -/
structure MCPClient where
  mcp_binary_path : String
  request_id : Nat

/-- Outcome of one subprocess round trip, as distinguished by
`_run_mcp_request`: a parsed JSON response, empty stdout, stdout that fails
to parse (carrying the decode-error text and the raw output), a missing
binary (FileNotFoundError), or any other launch-time exception. -/
inductive TransportOutcome where
  | response (j : Json)
  | noOutput
  | parseError (msg : String) (raw : String)
  | binaryMissing
  | otherError (msg : String)

/-- Observable effects of a run: the session object, every line printed
(stdout and stderr in program order) and every request handed to the
transport, in order. -/
structure Eff where
  client : MCPClient
  output : List String
  calls : List Request

/-- Fresh state for one `MCPClient(binary)` instance: request_id starts at 0
and no output or transport calls have happened. -/
def initialEff (binary : String) : Eff :=
  ⟨⟨binary, 0⟩, [], []⟩

/-- Record one printed line. -/
def emit (e : Eff) (s : String) : Eff :=
  ⟨e.client, e.output ++ [s], e.calls⟩

/-- `MCPClient._next_id`: increment the counter and return it. -/
def _next_id (c : MCPClient) : Nat × MCPClient :=
  (c.request_id + 1, ⟨c.mcp_binary_path, c.request_id + 1⟩)

/-- `MCPClient._run_mcp_request(method, params)`: build the request with the
next id, hand it to the subprocess (the oracle), and translate the outcome.
`params or {}` defaults a missing params mapping to the empty mapping.
Failure paths print their diagnostics (to stderr in Python) and yield None. -/
def _run_mcp_request (oracle : Request → TransportOutcome) (e : Eff)
    (method : String) (params : Option Json) : Option Json × Eff :=
  let idc := _next_id e.client
  let request : Request := ⟨"2.0", idc.1, method, params.getD (Json.obj [])⟩
  let e1 : Eff := ⟨idc.2, e.output, e.calls ++ [request]⟩
  match oracle request with
  | TransportOutcome.response j => (some j, e1)
  | TransportOutcome.noOutput =>
      (none, emit e1 "No response from MCP server")
  | TransportOutcome.parseError msg raw =>
      (none, emit (emit e1 ("Failed to parse JSON response: " ++ msg))
        ("Raw response: " ++ raw))
  | TransportOutcome.binaryMissing =>
      (none, emit (emit e1 ("MCP binary not found at " ++ e.client.mcp_binary_path))
        "Build the binary with: make build")
  | TransportOutcome.otherError msg =>
      (none, emit e1 ("Error running MCP request: " ++ msg))

/-- `MCPClient.initialize`: send the `initialize` method with no params, and
report success exactly when the response is truthy and has a `result` key. -/
def initServer (oracle : Request → TransportOutcome) (e : Eff) : Bool × Eff :=
  let e0 := emit e "Initializing MCP server..."
  let r := _run_mcp_request oracle e0 "initialize" none
  match r.1 with
  | some resp =>
      if pyTruthy resp && pyIn "result" resp then
        let si := Json.pyGet ((Json.lookup resp "result").getD Json.null)
          "serverInfo" (Json.obj [])
        (true, emit r.2 ("✅ Connected to " ++ jgetStr si "name" "mongo-essential"
          ++ " v" ++ jgetStr si "version" "unknown"))
      else
        (false, emit r.2 "❌ Failed to initialize MCP server")
  | none => (false, emit r.2 "❌ Failed to initialize MCP server")

/-- Lines printed for the tool list: name line, description line, blank line
per tool.  Python indexes tool['name'] and tool['description'] directly;
well-formed descriptors carry string values. -/
def toolLines : List Json → List String
  | [] => []
  | t :: ts =>
      ("🔧 " ++ jgetStr t "name" "")
        :: ("   " ++ jgetStr t "description" "") :: "" :: toolLines ts

/-- Append a batch of printed lines. -/
def emitAll (e : Eff) (ls : List String) : Eff :=
  ⟨e.client, e.output ++ ls, e.calls⟩

/-- `MCPClient.list_tools`: method `tools/list`, display
`result.get('tools', [])`. -/
def list_tools (oracle : Request → TransportOutcome) (e : Eff) : Bool × Eff :=
  let e0 := emit e "Listing available tools..."
  let r := _run_mcp_request oracle e0 "tools/list" none
  match r.1 with
  | some resp =>
      if pyTruthy resp && pyIn "result" resp then
        let tools :=
          match Json.pyGet ((Json.lookup resp "result").getD Json.null)
            "tools" (Json.arr []) with
          | Json.arr xs => xs
          | _ => []
        let e1 := emit r.2 ("\n📋 Available Tools (" ++ toString tools.length ++ "):")
        let e2 := emit e1 (String.mk (List.replicate 50 '='))
        (true, emitAll e2 (toolLines tools))
      else
        (false, emit r.2 "❌ Failed to list tools")
  | none => (false, emit r.2 "❌ Failed to list tools")

/-- The text payload of a content block: `block.get('text', default)`.
Well-formed blocks carry a string. -/
def textOf (block : Json) (d : String) : String :=
  jgetStr block "text" d

/-- `MCPClient.migration_status`: tools/call on migration_status with empty
arguments; print text of the first content block on success. -/
def migration_status (oracle : Request → TransportOutcome) (e : Eff) : Bool × Eff :=
  let e0 := emit e "Getting migration status..."
  let r := _run_mcp_request oracle e0 "tools/call"
    (some (Json.obj [("name", Json.str "migration_status"),
                     ("arguments", Json.obj [])]))
  match r.1 with
  | some resp =>
      if pyTruthy resp && pyIn "result" resp then
        match contentList ((Json.lookup resp "result").getD Json.null) with
        | c0 :: _ => (true, emit r.2 ("\n" ++ textOf c0 "No status available"))
        | [] => (false, emit r.2 "❌ Failed to get migration status")
      else (false, emit r.2 "❌ Failed to get migration status")
  | none => (false, emit r.2 "❌ Failed to get migration status")

/-- Truthiness of the Optional[str] version argument: None and the empty
string are falsy, any non-empty string is truthy. -/
def pyTruthyStrOpt : Option String → Bool
  | none => false
  | some s => !s.isEmpty

/-- The arguments mapping built by migration_up and migration_down:
`{"version": version} if version else {}` — the version key is present only
when the version value is truthy. -/
def versionArgs (version : Option String) : Json :=
  if pyTruthyStrOpt version then Json.obj [("version", Json.str (version.getD ""))]
  else Json.obj []

/-- `MCPClient.migration_up(version)`: the `version` key is put into the
arguments only when the version value is truthy. -/
def migration_up (oracle : Request → TransportOutcome) (e : Eff)
    (version : Option String) : Bool × Eff :=
  let action :=
    if pyTruthyStrOpt version then "up to version " ++ version.getD ""
    else "up (all pending)"
  let e0 := emit e ("Running migrations " ++ action ++ "...")
  let r := _run_mcp_request oracle e0 "tools/call"
    (some (Json.obj [("name", Json.str "migration_up"),
                     ("arguments", versionArgs version)]))
  match r.1 with
  | some resp =>
      if pyTruthy resp && pyIn "result" resp then
        match contentList ((Json.lookup resp "result").getD Json.null) with
        | c0 :: _ => (true, emit r.2 ("\n" ++ textOf c0 "Migration completed"))
        | [] => (false, emit r.2 "❌ Failed to run migrations")
      else (false, emit r.2 "❌ Failed to run migrations")
  | none => (false, emit r.2 "❌ Failed to run migrations")

/-- `MCPClient.migration_down(version)`: same argument handling as
migration_up. -/
def migration_down (oracle : Request → TransportOutcome) (e : Eff)
    (version : Option String) : Bool × Eff :=
  let action :=
    if pyTruthyStrOpt version then "down to version " ++ version.getD ""
    else "down (last migration)"
  let e0 := emit e ("Rolling back migrations " ++ action ++ "...")
  let r := _run_mcp_request oracle e0 "tools/call"
    (some (Json.obj [("name", Json.str "migration_down"),
                     ("arguments", versionArgs version)]))
  match r.1 with
  | some resp =>
      if pyTruthy resp && pyIn "result" resp then
        match contentList ((Json.lookup resp "result").getD Json.null) with
        | c0 :: _ => (true, emit r.2 ("\n" ++ textOf c0 "Migration rolled back"))
        | [] => (false, emit r.2 "❌ Failed to roll back migrations")
      else (false, emit r.2 "❌ Failed to roll back migrations")
  | none => (false, emit r.2 "❌ Failed to roll back migrations")

/-- `MCPClient.create_migration(name, description)`: both arguments are
always sent. -/
def create_migration (oracle : Request → TransportOutcome) (e : Eff)
    (name : String) (description : String) : Bool × Eff :=
  let e0 := emit e ("Creating migration: " ++ name)
  let r := _run_mcp_request oracle e0 "tools/call"
    (some (Json.obj [("name", Json.str "migration_create"),
                     ("arguments", Json.obj [("name", Json.str name),
                                             ("description", Json.str description)])]))
  match r.1 with
  | some resp =>
      if pyTruthy resp && pyIn "result" resp then
        match contentList ((Json.lookup resp "result").getD Json.null) with
        | c0 :: _ => (true, emit r.2 ("\n" ++ textOf c0 "Migration created"))
        | [] => (false, emit r.2 "❌ Failed to create migration")
      else (false, emit r.2 "❌ Failed to create migration")
  | none => (false, emit r.2 "❌ Failed to create migration")

/-- `MCPClient.list_migrations`: tools/call on migration_list. -/
def list_migrations (oracle : Request → TransportOutcome) (e : Eff) : Bool × Eff :=
  let e0 := emit e "Listing registered migrations..."
  let r := _run_mcp_request oracle e0 "tools/call"
    (some (Json.obj [("name", Json.str "migration_list"),
                     ("arguments", Json.obj [])]))
  match r.1 with
  | some resp =>
      if pyTruthy resp && pyIn "result" resp then
        match contentList ((Json.lookup resp "result").getD Json.null) with
        | c0 :: _ => (true, emit r.2 ("\n" ++ textOf c0 "No migrations found"))
        | [] => (false, emit r.2 "❌ Failed to list migrations")
      else (false, emit r.2 "❌ Failed to list migrations")
  | none => (false, emit r.2 "❌ Failed to list migrations")

/-- Find the first occurrence of `sep`, returning the characters before it
and the characters after it. -/
def splitFirst : List Char → Char → Option (List Char × List Char)
  | [], _ => none
  | c :: cs, sep =>
      if c = sep then some ([], cs)
      else
        match splitFirst cs sep with
        | none => none
        | some pr => some (c :: pr.1, pr.2)

/-- Python `s.split(sep, maxsplit)` on a single-character separator: at most
`maxsplit` splits, each at the next occurrence of `sep`; the remainder is the
final chunk.  Like Python, empty chunks between adjacent separators are
kept. -/
def pySplitChar : List Char → Char → Nat → List (List Char)
  | s, _, 0 => [s]
  | s, sep, m + 1 =>
      match splitFirst s sep with
      | none => [s]
      | some pr => pr.1 :: pySplitChar pr.2 sep m

/-- Whether `p` is an initial run of `cs` (Python str.startswith). -/
def startsWithChars : List Char → List Char → Bool
  | [], _ => true
  | _ :: _, [] => false
  | p :: ps, c :: cs => p == c && startsWithChars ps cs

/-- Python `s.strip()`: drop whitespace from both ends. -/
def stripChars (l : List Char) : List Char :=
  (((l.dropWhile Char.isWhitespace).reverse.dropWhile Char.isWhitespace)).reverse

/-- What the interactive loop does after one command: leave the loop
(`break`), skip the spacing print (`continue` on a blank line), or print the
spacing line and prompt again. -/
inductive LoopControl where
  | stop
  | skip
  | step

/-- The `create ` branch of the interactive dispatcher, exactly as written:
split the line into at most three chunks; with fewer than three, print usage;
otherwise re-split the THIRD chunk once on a space and use its two halves as
name and description (the second chunk is never used), printing usage when
the third chunk holds no space. -/
def createAction (oracle : Request → TransportOutcome) (e : Eff)
    (cs : List Char) : LoopControl × Eff :=
  let parts := pySplitChar cs ' ' 2
  if parts.length < 3 then
    (LoopControl.step, emit e "Usage: create <name> <description>")
  else
    let name_desc := pySplitChar (parts.getD 2 []) ' ' 1
    if name_desc.length < 2 then
      (LoopControl.step, emit e "Usage: create <name> <description>")
    else
      (LoopControl.step,
        (create_migration oracle e (String.mk (name_desc.getD 0 []))
          (String.mk (name_desc.getD 1 []))).2)

/-- The help text printed by `_print_help` (one multi-line string). -/
def helpText : String :=
  "\nAvailable commands:\n  help                     - Show this help\n"
    ++ "  tools                    - List available MCP tools\n"
    ++ "  status                   - Get migration status\n"
    ++ "  up [version]             - Apply migrations (optionally up to version)\n"
    ++ "  down [version]           - Roll back migrations (optionally to version)\n"
    ++ "  create <name> <desc>     - Create a new migration\n"
    ++ "  list                     - List all registered migrations\n"
    ++ "  quit/exit/q              - Exit interactive mode\n"

/-- One iteration of the interactive dispatch chain on the stripped command
characters, in the order the Python elif chain tests them. -/
def handleCommand (oracle : Request → TransportOutcome) (e : Eff)
    (cs : List Char) : LoopControl × Eff :=
  if cs = "quit".data ∨ cs = "exit".data ∨ cs = "q".data then
    (LoopControl.stop, emit e "Goodbye! 👋")
  else if cs = "help".data ∨ cs = "h".data then
    (LoopControl.step, emit e helpText)
  else if cs = "tools".data then
    (LoopControl.step, (list_tools oracle e).2)
  else if cs = "status".data then
    (LoopControl.step, (migration_status oracle e).2)
  else if cs = "up".data then
    (LoopControl.step, (migration_up oracle e none).2)
  else if startsWithChars "up ".data cs then
    (LoopControl.step,
      (migration_up oracle e (some (String.mk ((pySplitChar cs ' ' 1).getD 1 [])))).2)
  else if cs = "down".data then
    (LoopControl.step, (migration_down oracle e none).2)
  else if startsWithChars "down ".data cs then
    (LoopControl.step,
      (migration_down oracle e (some (String.mk ((pySplitChar cs ' ' 1).getD 1 [])))).2)
  else if startsWithChars "create ".data cs then
    createAction oracle e cs
  else if cs = "list".data then
    (LoopControl.step, (list_migrations oracle e).2)
  else if cs = [] then
    (LoopControl.skip, e)
  else
    (LoopControl.step,
      emit e ("Unknown command: " ++ String.mk cs ++ ". Type help for available commands."))

/-- Strip one raw input line and dispatch it. -/
def processLine (oracle : Request → TransportOutcome) (e : Eff)
    (line : String) : LoopControl × Eff :=
  handleCommand oracle e (stripChars line.data)

/-- The interactive while-loop over the remaining input lines; the end of the
list is end-of-input (EOFError), which prints the farewell. -/
def interactiveLoop (oracle : Request → TransportOutcome) :
    List String → Eff → Eff
  | [], e => emit e "\nGoodbye! 👋"
  | line :: rest, e =>
      match processLine oracle e line with
      | (LoopControl.stop, e1) => e1
      | (LoopControl.skip, e1) => interactiveLoop oracle rest e1
      | (LoopControl.step, e1) => interactiveLoop oracle rest (emit e1 "")

/-- `MCPClient.interactive_mode(lines)`: banner, one initialize; when it
fails the loop is never entered and the method returns. -/
def interactive_mode (oracle : Request → TransportOutcome)
    (lines : List String) (e : Eff) : Eff :=
  let e0 := emit e "🚀 MongoDB Migration MCP Client - Interactive Mode"
  let e1 := emit e0 "Type help for available commands, quit to exit"
  let e2 := emit e1 ""
  let r := initServer oracle e2
  if r.1 then interactiveLoop oracle lines r.2 else r.2

/-- The if/elif dispatch at the bottom of `main` that runs exactly one
one-shot command and yields its success flag.  The `create` arm with fewer
than two arguments prints usage and fails (sys.exit(1) in Python). -/
def dispatchOneShot (oracle : Request → TransportOutcome) (e : Eff)
    (cmd : String) (cmdArgs : List String) : Bool × Eff :=
  if cmd = "init" then initServer oracle e
  else if cmd = "tools" then list_tools oracle e
  else if cmd = "status" then migration_status oracle e
  else if cmd = "up" then migration_up oracle e cmdArgs.head?
  else if cmd = "down" then migration_down oracle e cmdArgs.head?
  else if cmd = "create" then
    if cmdArgs.length < 2 then
      (false, emit e "Usage: create <name> <description>")
    else
      create_migration oracle e (cmdArgs.getD 0 "")
        (String.intercalate " " cmdArgs.tail)
  else if cmd = "list" then list_migrations oracle e
  else (false, e)

/-- The one-shot path of `main` after the binary check: every command other
than `init` first performs an implicit initialize; when that fails the
process aborts with failure (sys.exit(1)) and the command is never
dispatched. -/
def runCommand (oracle : Request → TransportOutcome) (e : Eff)
    (cmd : String) (cmdArgs : List String) : Bool × Eff :=
  if cmd = "init" then dispatchOneShot oracle e cmd cmdArgs
  else
    let r := initServer oracle e
    if r.1 then dispatchOneShot oracle r.2 cmd cmdArgs
    else (false, r.2)

/-- `main()`: exit code and accumulated effects of one process invocation.
`binaryExists` is the result of os.path.exists on the configured path,
`command` is the parsed positional command (None means interactive),
`cmdArgs` the remaining positionals, `lines` the interactive input.
Missing binary exits 1 before any client exists; interactive invocations
return from main normally, so the process exits 0; one-shot invocations exit
0 exactly when the dispatched operation reported success. -/
def pyMain (oracle : Request → TransportOutcome) (binaryExists : Bool)
    (binary : String) (command : Option String) (cmdArgs : List String)
    (lines : List String) : Nat × Eff :=
  if !binaryExists then
    (1, emit (emit (initialEff binary) ("Error: Binary not found at " ++ binary))
      "Build it with: make build")
  else if command = none ∨ command = some "interactive" then
    (0, interactive_mode oracle lines (initialEff binary))
  else
    let r := runCommand oracle (initialEff binary) (command.getD "") cmdArgs
    (if r.1 then 0 else 1, r.2)

/-- An arbitrary sequence of direct transport calls against one client
instance (every intent funnels through `_run_mcp_request`). -/
def runSequence (oracle : Request → TransportOutcome) :
    List (String × Option Json) → Eff → Eff
  | [], e => e
  | mp :: rest, e =>
      runSequence oracle rest (_run_mcp_request oracle e mp.1 mp.2).2

/-- The list s, s+1, ..., s+n-1. -/
def idRange (s n : Nat) : List Nat :=
  match n with
  | 0 => []
  | m + 1 => s :: idRange (s + 1) m

/-- An oracle whose subprocess never writes anything to stdout. -/
def badOracle : Request → TransportOutcome := fun _ => TransportOutcome.noOutput

/-- An oracle that always returns the same outcome. -/
def constOracle (o : TransportOutcome) : Request → TransportOutcome := fun _ => o

/-- A well-formed tool-call response whose first content block says ok. -/
def goodResp : Json :=
  Json.obj [("result",
    Json.obj [("content", Json.arr [Json.obj [("text", Json.str "ok")]])])]

/-- An oracle that answers every request with `goodResp`. -/
def goodOracle : Request → TransportOutcome :=
  fun _ => TransportOutcome.response goodResp

/-- An oracle giving a well-formed initialize response and a well-formed
tool-call response with one content block. -/
def c6Oracle : Request → TransportOutcome := fun r =>
  if r.method = "initialize" then
    TransportOutcome.response (Json.obj [("result", Json.obj [])])
  else
    TransportOutcome.response (Json.obj [("result",
      Json.obj [("content",
        Json.arr [Json.obj [("text", Json.str "Applied migrations")]])])])

theorem run_request_client (oracle : Request → TransportOutcome) (e : Eff)
    (m : String) (p : Option Json) :
    (_run_mcp_request oracle e m p).2.client =
      ⟨e.client.mcp_binary_path, e.client.request_id + 1⟩ := by
  rcases ho : oracle ⟨"2.0", e.client.request_id + 1, m, p.getD (Json.obj [])⟩ <;>
    simp [_run_mcp_request, _next_id, emit, ho]

theorem run_request_calls (oracle : Request → TransportOutcome) (e : Eff)
    (m : String) (p : Option Json) :
    (_run_mcp_request oracle e m p).2.calls =
      e.calls ++ [⟨"2.0", e.client.request_id + 1, m, p.getD (Json.obj [])⟩] := by
  rcases ho : oracle ⟨"2.0", e.client.request_id + 1, m, p.getD (Json.obj [])⟩ <;>
    simp [_run_mcp_request, _next_id, emit, ho]

theorem initServer_calls (oracle : Request → TransportOutcome) (e : Eff) :
    (initServer oracle e).2.calls =
      e.calls ++ [⟨"2.0", e.client.request_id + 1, "initialize", Json.obj []⟩] := by
  simp only [initServer]
  split <;> (try split) <;> simp [emit, run_request_calls]

theorem list_tools_calls (oracle : Request → TransportOutcome) (e : Eff) :
    (list_tools oracle e).2.calls =
      e.calls ++ [⟨"2.0", e.client.request_id + 1, "tools/list", Json.obj []⟩] := by
  simp only [list_tools]
  split <;> (try split) <;> simp [emit, emitAll, run_request_calls]

theorem migration_status_calls (oracle : Request → TransportOutcome) (e : Eff) :
    (migration_status oracle e).2.calls =
      e.calls ++ [⟨"2.0", e.client.request_id + 1, "tools/call",
        Json.obj [("name", Json.str "migration_status"),
                  ("arguments", Json.obj [])]⟩] := by
  simp only [migration_status]
  split <;> (try split) <;> (try split) <;> simp [emit, run_request_calls]

theorem migration_up_calls (oracle : Request → TransportOutcome) (e : Eff)
    (v : Option String) :
    (migration_up oracle e v).2.calls =
      e.calls ++ [⟨"2.0", e.client.request_id + 1, "tools/call",
        Json.obj [("name", Json.str "migration_up"),
                  ("arguments", versionArgs v)]⟩] := by
  simp only [migration_up]
  split <;> (try split) <;> (try split) <;> simp [emit, run_request_calls]

theorem migration_down_calls (oracle : Request → TransportOutcome) (e : Eff)
    (v : Option String) :
    (migration_down oracle e v).2.calls =
      e.calls ++ [⟨"2.0", e.client.request_id + 1, "tools/call",
        Json.obj [("name", Json.str "migration_down"),
                  ("arguments", versionArgs v)]⟩] := by
  simp only [migration_down]
  split <;> (try split) <;> (try split) <;> simp [emit, run_request_calls]

theorem create_migration_calls (oracle : Request → TransportOutcome) (e : Eff)
    (n d : String) :
    (create_migration oracle e n d).2.calls =
      e.calls ++ [⟨"2.0", e.client.request_id + 1, "tools/call",
        Json.obj [("name", Json.str "migration_create"),
                  ("arguments", Json.obj [("name", Json.str n),
                                          ("description", Json.str d)])]⟩] := by
  simp only [create_migration]
  split <;> (try split) <;> (try split) <;> simp [emit, run_request_calls]

theorem list_migrations_calls (oracle : Request → TransportOutcome) (e : Eff) :
    (list_migrations oracle e).2.calls =
      e.calls ++ [⟨"2.0", e.client.request_id + 1, "tools/call",
        Json.obj [("name", Json.str "migration_list"),
                  ("arguments", Json.obj [])]⟩] := by
  simp only [list_migrations]
  split <;> (try split) <;> (try split) <;> simp [emit, run_request_calls]

theorem dispatchOneShot_calls_ext (oracle : Request → TransportOutcome) (e : Eff)
    (cmd : String) (cmdArgs : List String) :
    ∃ t, (dispatchOneShot oracle e cmd cmdArgs).2.calls = e.calls ++ t := by
  simp only [dispatchOneShot]
  split
  · exact ⟨_, initServer_calls oracle e⟩
  split
  · exact ⟨_, list_tools_calls oracle e⟩
  split
  · exact ⟨_, migration_status_calls oracle e⟩
  split
  · exact ⟨_, migration_up_calls oracle e _⟩
  split
  · exact ⟨_, migration_down_calls oracle e _⟩
  split
  · split
    · exact ⟨[], by simp [emit]⟩
    · exact ⟨_, create_migration_calls oracle e _ _⟩
  split
  · exact ⟨_, list_migrations_calls oracle e⟩
  · exact ⟨[], by simp⟩

theorem initServer_client (oracle : Request → TransportOutcome) (e : Eff) :
    (initServer oracle e).2.client =
      ⟨e.client.mcp_binary_path, e.client.request_id + 1⟩ := by
  simp only [initServer]
  split <;> (try split) <;> simp [emit, run_request_client]

theorem runSequence_spec (oracle : Request → TransportOutcome)
    (reqs : List (String × Option Json)) : ∀ e : Eff,
    (runSequence oracle reqs e).calls.map Request.id =
      e.calls.map Request.id ++ idRange (e.client.request_id + 1) reqs.length := by
  induction reqs with
  | nil => intro e; simp [runSequence, idRange]
  | cons mp rest ih =>
      intro e
      have hc := run_request_calls oracle e mp.1 mp.2
      have hcl := run_request_client oracle e mp.1 mp.2
      have h := ih (_run_mcp_request oracle e mp.1 mp.2).2
      simp only [runSequence, h, hc, hcl, idRange, List.length_cons, List.map_append,
        List.map_cons, List.map_nil, List.append_assoc, List.singleton_append]

theorem idRange_le_of_mem (s n : Nat) : ∀ i ∈ idRange s n, s ≤ i := by
  induction n generalizing s with
  | zero => intro i hi; simp [idRange] at hi
  | succ m ih =>
      intro i hi
      simp only [idRange, List.mem_cons] at hi
      rcases hi with rfl | hi
      · exact Nat.le_refl i
      · exact Nat.le_of_succ_le (ih (s + 1) i hi)

theorem idRange_pairwise (s n : Nat) : List.Pairwise (· < ·) (idRange s n) := by
  induction n generalizing s with
  | zero => simp [idRange]
  | succ m ih =>
      simp only [idRange, List.pairwise_cons]
      exact ⟨fun i hi => Nat.lt_of_lt_of_le (Nat.lt_succ_self s)
        (idRange_le_of_mem (s + 1) m i hi), ih (s + 1)⟩

theorem splitFirst_not_mem (l : List Char) (sep : Char) (h : sep ∉ l) :
    splitFirst l sep = none := by
  induction l with
  | nil => rfl
  | cons c cs ih =>
      simp only [List.mem_cons, not_or] at h
      simp only [splitFirst]
      rw [if_neg (fun hc => h.1 hc.symm), ih h.2]

theorem splitFirst_append (xs ys : List Char) (sep : Char) (h : sep ∉ xs) :
    splitFirst (xs ++ sep :: ys) sep = some (xs, ys) := by
  induction xs with
  | nil => simp [splitFirst]
  | cons c cs ih =>
      simp only [List.mem_cons, not_or] at h
      have hne : ¬ c = sep := fun hc => h.1 hc.symm
      simp only [List.cons_append, splitFirst, if_neg hne, List.append_eq, ih h.2]

theorem pySplitChar_succ (s : List Char) (sep : Char) (m : Nat) :
    pySplitChar s sep (m + 1) =
      match splitFirst s sep with
      | none => [s]
      | some pr => pr.1 :: pySplitChar pr.2 sep m := rfl

theorem stripChars_eq_self (l : List Char)
    (h1 : ∀ c, l.head? = some c → c.isWhitespace = false)
    (h2 : ∀ c, l.getLast? = some c → c.isWhitespace = false) :
    stripChars l = l := by
  cases l with
  | nil => rfl
  | cons a as =>
      have ha : a.isWhitespace = false := h1 a rfl
      have hd : List.dropWhile Char.isWhitespace (a :: as) = a :: as := by
        simp [List.dropWhile_cons, ha]
      unfold stripChars
      rw [hd]
      rcases hr : (a :: as).reverse with _ | ⟨y, ys⟩
      · exact absurd hr (by simp)
      · have hlast : (a :: as).getLast? = some y := by
          rw [← List.head?_reverse, hr]
          rfl
        have hy : y.isWhitespace = false := h2 y hlast
        have hdr : List.dropWhile Char.isWhitespace (y :: ys) = y :: ys := by
          simp [List.dropWhile_cons, hy]
        rw [hdr]
        have hrr := congrArg List.reverse hr
        rw [List.reverse_reverse] at hrr
        exact hrr.symm

/-- C1: the claim states that an interactive `create <name> <description...>`
line calls Transport once with arguments name = first token and
description = remaining text.  Evaluating the code on the line
`create add_index Add user email index` (the shape of the help example)
shows that the dispatcher instead discards the first token: the single
Transport call carries name "Add" (the second token) and description
"user email index" (the text after the second token), contradicting the
module docstring, the usage message and the one-shot create path. -/
theorem c1_interactive_create_eval :
    ((processLine goodOracle (initialEff "./build/mongo-essential")
        "create add_index Add user email index").2.calls.map Request.params =
      [Json.obj [("name", Json.str "migration_create"),
                 ("arguments", Json.obj [("name", Json.str "Add"),
                                         ("description", Json.str "user email index")])]]) ∧
    ("Add" : String) ≠ "add_index" :=
  ⟨rfl, by decide⟩

/-- C2 counterexample: an interactive-mode invocation whose initialize call
fails exits with status 0 while a failure has been reported, refuting the
claim that the process exit status is 1 on any reported failure. -/
theorem c2_counterexample :
    (pyMain badOracle true "./build/mongo-essential" (some "interactive") [] []).1 = 0 ∧
    "❌ Failed to initialize MCP server" ∈
      (pyMain badOracle true "./build/mongo-essential" (some "interactive") [] []).2.output := by
  constructor
  · rfl
  · simp [pyMain, interactive_mode, initServer, _run_mcp_request, _next_id, emit,
      initialEff, badOracle]

/-- C2 amended: a missing binary exits 1; interactive-mode invocations
(command absent or `interactive`) always exit 0, even when initialize fails;
a one-shot invocation exits 0 exactly when the dispatched operation
(including its implicit initialize gate) reports success. -/
theorem c2_amended_exit_status (oracle : Request → TransportOutcome) (bin : String)
    (command : Option String) (cmdArgs : List String) (lines : List String) :
    ((pyMain oracle false bin command cmdArgs lines).1 = 1) ∧
    ((command = none ∨ command = some "interactive") →
      (pyMain oracle true bin command cmdArgs lines).1 = 0) ∧
    (∀ c, command = some c → c ≠ "interactive" →
      ((pyMain oracle true bin command cmdArgs lines).1 = 0 ↔
        (runCommand oracle (initialEff bin) c cmdArgs).1 = true)) := by
  refine ⟨by simp [pyMain], ?_, ?_⟩
  · intro h
    rcases h with h | h <;> simp [pyMain, h]
  · intro c hc hint
    subst hc
    simp only [pyMain, Option.getD_some, Bool.not_true, Bool.false_eq_true, if_false]
    have hcond : ¬((some c = none) ∨ (some c = some "interactive")) := by simp [hint]
    rw [if_neg hcond]
    by_cases hb : (runCommand oracle (initialEff bin) c cmdArgs).1 = true <;> simp [hb]

/-- Witness for C2 amended at a concrete input: the interactive invocation
with a failing transport exits 0. -/
theorem c2_amended_witness :
    (pyMain badOracle true "./build/mongo-essential" (some "interactive") [] []).1 = 0 :=
  (c2_amended_exit_status badOracle "./build/mongo-essential" (some "interactive") [] []).2.1
    (Or.inr rfl)

/-- C3: over any sequence of Transport calls from a fresh client instance,
the request ids attached to the issued requests are exactly 1, 2, ..., n —
strictly increasing with no repeats, and the first id issued is 1. -/
theorem c3_request_ids (oracle : Request → TransportOutcome) (bin : String)
    (reqs : List (String × Option Json)) :
    (runSequence oracle reqs (initialEff bin)).calls.map Request.id =
        idRange 1 reqs.length ∧
    List.Pairwise (· < ·)
        ((runSequence oracle reqs (initialEff bin)).calls.map Request.id) ∧
    (reqs ≠ [] →
      ((runSequence oracle reqs (initialEff bin)).calls.map Request.id).head? =
        some 1) := by
  have h : (runSequence oracle reqs (initialEff bin)).calls.map Request.id =
      idRange 1 reqs.length := by
    simpa [initialEff] using runSequence_spec oracle reqs (initialEff bin)
  refine ⟨h, ?_, ?_⟩
  · rw [h]; exact idRange_pairwise 1 reqs.length
  · intro hne
    rw [h]
    cases reqs with
    | nil => exact absurd rfl hne
    | cons a l => simp [idRange]

/-- Witness for C3 at a concrete two-request sequence. -/
theorem c3_request_ids_witness :
    ([("initialize", (none : Option Json)), ("tools/list", none)] ≠
      ([] : List (String × Option Json))) ∧
    ((runSequence badOracle [("initialize", none), ("tools/list", none)]
        (initialEff "./build/mongo-essential")).calls.map Request.id).head? = some 1 :=
  ⟨by simp, (c3_request_ids badOracle "./build/mongo-essential"
      [("initialize", none), ("tools/list", none)]).2.2 (by simp)⟩

/-- C4: for every intent, a response mapping lacking a `result` key makes the
intent return failure and print the same final failure line as when the
Transport itself fails (here: empty stdout); nothing is raised because every
path is total. -/
theorem c4_missing_result (fs : List (String × Json))
    (hj : pyIn "result" (Json.obj fs) = false) (e : Eff) (v : Option String)
    (n d : String) :
    ((initServer (constOracle (TransportOutcome.response (Json.obj fs))) e).1 = false ∧
     (initServer (constOracle TransportOutcome.noOutput) e).1 = false ∧
     (initServer (constOracle (TransportOutcome.response (Json.obj fs))) e).2.output.getLast? =
       some "❌ Failed to initialize MCP server" ∧
     (initServer (constOracle TransportOutcome.noOutput) e).2.output.getLast? =
       some "❌ Failed to initialize MCP server") ∧
    ((list_tools (constOracle (TransportOutcome.response (Json.obj fs))) e).1 = false ∧
     (list_tools (constOracle TransportOutcome.noOutput) e).1 = false ∧
     (list_tools (constOracle (TransportOutcome.response (Json.obj fs))) e).2.output.getLast? =
       some "❌ Failed to list tools" ∧
     (list_tools (constOracle TransportOutcome.noOutput) e).2.output.getLast? =
       some "❌ Failed to list tools") ∧
    ((migration_status (constOracle (TransportOutcome.response (Json.obj fs))) e).1 = false ∧
     (migration_status (constOracle TransportOutcome.noOutput) e).1 = false ∧
     (migration_status (constOracle (TransportOutcome.response (Json.obj fs))) e).2.output.getLast? =
       some "❌ Failed to get migration status" ∧
     (migration_status (constOracle TransportOutcome.noOutput) e).2.output.getLast? =
       some "❌ Failed to get migration status") ∧
    ((migration_up (constOracle (TransportOutcome.response (Json.obj fs))) e v).1 = false ∧
     (migration_up (constOracle TransportOutcome.noOutput) e v).1 = false ∧
     (migration_up (constOracle (TransportOutcome.response (Json.obj fs))) e v).2.output.getLast? =
       some "❌ Failed to run migrations" ∧
     (migration_up (constOracle TransportOutcome.noOutput) e v).2.output.getLast? =
       some "❌ Failed to run migrations") ∧
    ((migration_down (constOracle (TransportOutcome.response (Json.obj fs))) e v).1 = false ∧
     (migration_down (constOracle TransportOutcome.noOutput) e v).1 = false ∧
     (migration_down (constOracle (TransportOutcome.response (Json.obj fs))) e v).2.output.getLast? =
       some "❌ Failed to roll back migrations" ∧
     (migration_down (constOracle TransportOutcome.noOutput) e v).2.output.getLast? =
       some "❌ Failed to roll back migrations") ∧
    ((create_migration (constOracle (TransportOutcome.response (Json.obj fs))) e n d).1 = false ∧
     (create_migration (constOracle TransportOutcome.noOutput) e n d).1 = false ∧
     (create_migration (constOracle (TransportOutcome.response (Json.obj fs))) e n d).2.output.getLast? =
       some "❌ Failed to create migration" ∧
     (create_migration (constOracle TransportOutcome.noOutput) e n d).2.output.getLast? =
       some "❌ Failed to create migration") ∧
    ((list_migrations (constOracle (TransportOutcome.response (Json.obj fs))) e).1 = false ∧
     (list_migrations (constOracle TransportOutcome.noOutput) e).1 = false ∧
     (list_migrations (constOracle (TransportOutcome.response (Json.obj fs))) e).2.output.getLast? =
       some "❌ Failed to list migrations" ∧
     (list_migrations (constOracle TransportOutcome.noOutput) e).2.output.getLast? =
       some "❌ Failed to list migrations") := by
  refine ⟨⟨?_, ?_, ?_, ?_⟩, ⟨?_, ?_, ?_, ?_⟩, ⟨?_, ?_, ?_, ?_⟩, ⟨?_, ?_, ?_, ?_⟩,
    ⟨?_, ?_, ?_, ?_⟩, ⟨?_, ?_, ?_, ?_⟩, ⟨?_, ?_, ?_, ?_⟩⟩ <;>
  simp [initServer, list_tools, migration_status, migration_up, migration_down,
    create_migration, list_migrations, _run_mcp_request, _next_id, emit, emitAll,
    constOracle, hj, List.getLast?_concat]

/-- Witness for C4 at a concrete result-less mapping. -/
theorem c4_missing_result_witness :
    (initServer (constOracle (TransportOutcome.response (Json.obj [("error", Json.null)])))
      (initialEff "./build/mongo-essential")).1 = false :=
  (c4_missing_result [("error", Json.null)] (by decide)
    (initialEff "./build/mongo-essential") none "n" "d").1.1

/-- C5: a one-shot command other than `init` first issues the initialize
request (the head of the transport-call sequence is the id-1 initialize
request); when that implicit initialize fails, the process exits 1 and the
initialize request is the only transport call ever made. -/
theorem c5_implicit_init (oracle : Request → TransportOutcome) (bin cmd : String)
    (cmdArgs : List String) (lines : List String)
    (hcmd : cmd ≠ "init") (hint : cmd ≠ "interactive") :
    ((runCommand oracle (initialEff bin) cmd cmdArgs).2.calls.head? =
      some ⟨"2.0", 1, "initialize", Json.obj []⟩) ∧
    ((initServer oracle (initialEff bin)).1 = false →
      (pyMain oracle true bin (some cmd) cmdArgs lines).1 = 1 ∧
      (pyMain oracle true bin (some cmd) cmdArgs lines).2.calls =
        [⟨"2.0", 1, "initialize", Json.obj []⟩]) := by
  have hic : (initServer oracle (initialEff bin)).2.calls =
      [⟨"2.0", 1, "initialize", Json.obj []⟩] := by
    simpa [initialEff] using initServer_calls oracle (initialEff bin)
  constructor
  · simp only [runCommand, if_neg hcmd]
    by_cases hok : (initServer oracle (initialEff bin)).1 = true
    · obtain ⟨t, ht⟩ := dispatchOneShot_calls_ext oracle
        (initServer oracle (initialEff bin)).2 cmd cmdArgs
      simp [hok, ht, hic]
    · simp only [Bool.not_eq_true] at hok
      simp [hok, hic]
  · intro hfail
    have hmain : pyMain oracle true bin (some cmd) cmdArgs lines =
        (1, (initServer oracle (initialEff bin)).2) := by
      simp [pyMain, runCommand, hint, if_neg hcmd, hfail]
    rw [hmain]
    exact ⟨rfl, hic⟩

/-- Witness for C5 at a concrete failing one-shot `status` invocation. -/
theorem c5_implicit_init_witness :
    (pyMain badOracle true "./build/mongo-essential" (some "status") [] []).1 = 1 :=
  ((c5_implicit_init badOracle "./build/mongo-essential" "status" [] []
      (by decide) (by decide)).2 rfl).1

/-- C6: a one-shot `up 20240101_001` whose two subprocess round trips return
well-formed responses issues exactly the initialize request and the
tools/call request with name migration_up and arguments containing version
"20240101_001", prints the text of the first content block, and exits 0. -/
theorem c6_one_shot_up (oracle : Request → TransportOutcome) (bin : String)
    (lines : List String) (rv : Json) (t : String) (rest : List Json)
    (h1 : oracle ⟨"2.0", 1, "initialize", Json.obj []⟩ =
      TransportOutcome.response (Json.obj [("result", rv)]))
    (h2 : oracle ⟨"2.0", 2, "tools/call",
        Json.obj [("name", Json.str "migration_up"),
                  ("arguments", Json.obj [("version", Json.str "20240101_001")])]⟩ =
      TransportOutcome.response (Json.obj [("result",
        Json.obj [("content", Json.arr (Json.obj [("text", Json.str t)] :: rest))])])) :
    (pyMain oracle true bin (some "up") ["20240101_001"] lines).1 = 0 ∧
    (pyMain oracle true bin (some "up") ["20240101_001"] lines).2.calls =
      [⟨"2.0", 1, "initialize", Json.obj []⟩,
       ⟨"2.0", 2, "tools/call",
        Json.obj [("name", Json.str "migration_up"),
                  ("arguments", Json.obj [("version", Json.str "20240101_001")])]⟩] ∧
    ("\n" ++ t) ∈ (pyMain oracle true bin (some "up") ["20240101_001"] lines).2.output := by
  have hv : pyTruthyStrOpt (some "20240101_001") = true := rfl
  refine ⟨?_, ?_, ?_⟩ <;>
  simp [pyMain, runCommand, dispatchOneShot, initServer, migration_up, versionArgs,
    hv, _run_mcp_request, _next_id, emit, initialEff, h1, h2, pyTruthy, pyIn,
    contentList, Json.pyGet, Json.lookup, textOf, jgetStr]

/-- Witness for C6 with a concrete well-behaved oracle. -/
theorem c6_one_shot_up_witness :
    (pyMain c6Oracle true "./build/mongo-essential" (some "up") ["20240101_001"] []).1 = 0 :=
  (c6_one_shot_up c6Oracle "./build/mongo-essential" [] (Json.obj [])
    "Applied migrations" [] rfl rfl).1

/-- C7: a one-shot `status` invocation with a missing binary exits 1,
prints the binary-not-found message, and makes no transport call at all
(the call list of the final state is empty). -/
theorem c7_missing_binary (oracle : Request → TransportOutcome) (bin : String)
    (cmdArgs : List String) (lines : List String) :
    pyMain oracle false bin (some "status") cmdArgs lines =
      (1, ⟨⟨bin, 0⟩,
           ["Error: Binary not found at " ++ bin, "Build it with: make build"],
           []⟩) := rfl

/-- C8: every transport call, whatever its outcome, leaves the session with
the same binary path and the request-id counter incremented by exactly one;
the session holds no other state (the client record has only these two
fields). -/
theorem c8_transport_frame (oracle : Request → TransportOutcome) (e : Eff)
    (m : String) (p : Option Json) :
    (_run_mcp_request oracle e m p).2.client =
      ⟨e.client.mcp_binary_path, e.client.request_id + 1⟩ :=
  run_request_client oracle e m p

/-- C9: an interactive `create` line with exactly two space-separated tokens
after the command word prints the usage message and issues no transport
call. -/
theorem c9_create_two_tokens (oracle : Request → TransportOutcome) (e : Eff)
    (a b : String) (ha : a.data ≠ []) (hb : b.data ≠ [])
    (haw : ∀ c ∈ a.data, c.isWhitespace = false)
    (hbw : ∀ c ∈ b.data, c.isWhitespace = false) :
    processLine oracle e ("create " ++ a ++ " " ++ b) =
      (LoopControl.step, emit e "Usage: create <name> <description>") ∧
    (processLine oracle e ("create " ++ a ++ " " ++ b)).2.calls = e.calls := by
  have hasp : ' ' ∉ a.data := fun hm => absurd (haw ' ' hm) (by decide)
  have hbsp : ' ' ∉ b.data := fun hm => absurd (hbw ' ' hm) (by decide)
  have hdata : ("create " ++ a ++ " " ++ b).data =
      'c' :: 'r' :: 'e' :: 'a' :: 't' :: 'e' :: ' ' :: (a.data ++ ' ' :: b.data) := by
    rw [String.data_append, String.data_append, String.data_append]
    simp [show "create ".data = ['c', 'r', 'e', 'a', 't', 'e', ' '] from rfl,
      show " ".data = [' '] from rfl]
  have hstrip : stripChars (("create " ++ a ++ " " ++ b).data) =
      'c' :: 'r' :: 'e' :: 'a' :: 't' :: 'e' :: ' ' :: (a.data ++ ' ' :: b.data) := by
    rw [hdata]
    apply stripChars_eq_self
    · intro c hc
      simp only [List.head?_cons, Option.some.injEq] at hc
      rw [← hc]
      decide
    · intro c hc
      have h1 : ('c' :: 'r' :: 'e' :: 'a' :: 't' :: 'e' :: ' ' ::
          (a.data ++ ' ' :: b.data)).getLast? = b.data.getLast? := by
        have e1 : 'c' :: 'r' :: 'e' :: 'a' :: 't' :: 'e' :: ' ' ::
            (a.data ++ ' ' :: b.data)
            = (['c', 'r', 'e', 'a', 't', 'e', ' '] ++ a.data) ++ ' ' :: b.data := by
          simp
        rw [e1, List.getLast?_append_cons]
        exact List.getLast?_append_of_ne_nil [' '] hb
      rw [h1] at hc
      have hmem : c ∈ b.data.getLast? := Option.mem_def.mpr hc
      obtain ⟨hne, hEq⟩ := List.mem_getLast?_eq_getLast hmem
      rw [hEq]
      exact hbw _ (List.getLast_mem hne)
  have hs1 : splitFirst ('c' :: 'r' :: 'e' :: 'a' :: 't' :: 'e' :: ' ' ::
      (a.data ++ ' ' :: b.data)) ' '
      = some (['c', 'r', 'e', 'a', 't', 'e'], a.data ++ ' ' :: b.data) :=
    splitFirst_append ['c', 'r', 'e', 'a', 't', 'e'] (a.data ++ ' ' :: b.data) ' '
      (by decide)
  have hs2 : splitFirst (a.data ++ ' ' :: b.data) ' ' = some (a.data, b.data) :=
    splitFirst_append a.data b.data ' ' hasp
  have hs3 : splitFirst b.data ' ' = none := splitFirst_not_mem b.data ' ' hbsp
  have p1 : pySplitChar (a.data ++ ' ' :: b.data) ' ' 1 = [a.data, b.data] := by
    rw [show (1 : Nat) = 0 + 1 from rfl, pySplitChar_succ, hs2]
    rfl
  have hparts : pySplitChar ('c' :: 'r' :: 'e' :: 'a' :: 't' :: 'e' :: ' ' ::
      (a.data ++ ' ' :: b.data)) ' ' 2
      = [['c', 'r', 'e', 'a', 't', 'e'], a.data, b.data] := by
    rw [show (2 : Nat) = 1 + 1 from rfl, pySplitChar_succ, hs1]
    show ['c', 'r', 'e', 'a', 't', 'e'] ::
      pySplitChar (a.data ++ ' ' :: b.data) ' ' 1 = _
    rw [p1]
  have hnd : pySplitChar b.data ' ' 1 = [b.data] := by
    rw [show (1 : Nat) = 0 + 1 from rfl, pySplitChar_succ, hs3]
  have hline : processLine oracle e ("create " ++ a ++ " " ++ b)
      = createAction oracle e ('c' :: 'r' :: 'e' :: 'a' :: 't' :: 'e' :: ' ' ::
          (a.data ++ ' ' :: b.data)) := by
    simp only [processLine]
    rw [hstrip]
    rfl
  have hca : createAction oracle e ('c' :: 'r' :: 'e' :: 'a' :: 't' :: 'e' :: ' ' ::
      (a.data ++ ' ' :: b.data))
      = (LoopControl.step, emit e "Usage: create <name> <description>") := by
    simp only [createAction, hparts, hnd, List.getD]
    simp [hnd]
  refine ⟨hline.trans hca, ?_⟩
  rw [hline, hca]
  simp [emit]

/-- Witness for C9 at a concrete two-token create line. -/
theorem c9_create_two_tokens_witness :
    processLine badOracle (initialEff "./build/mongo-essential")
        ("create " ++ "add_index" ++ " " ++ "cool") =
      (LoopControl.step, emit (initialEff "./build/mongo-essential")
        "Usage: create <name> <description>") :=
  (c9_create_two_tokens badOracle (initialEff "./build/mongo-essential")
    "add_index" "cool" (by decide) (by decide) (by decide) (by decide)).1

/-- C10: calling migration_up or migration_down with an empty-string version
is literally the same computation as calling it with no version, and in the
no-version case the transport request carries an empty arguments mapping —
the `version` key is omitted. -/
theorem c10_empty_version (oracle : Request → TransportOutcome) (e : Eff) :
    migration_up oracle e (some "") = migration_up oracle e none ∧
    migration_down oracle e (some "") = migration_down oracle e none ∧
    versionArgs (some "") = Json.obj [] ∧
    (migration_up oracle e none).2.calls = e.calls ++
      [⟨"2.0", e.client.request_id + 1, "tools/call",
        Json.obj [("name", Json.str "migration_up"),
                  ("arguments", Json.obj [])]⟩] ∧
    (migration_down oracle e none).2.calls = e.calls ++
      [⟨"2.0", e.client.request_id + 1, "tools/call",
        Json.obj [("name", Json.str "migration_down"),
                  ("arguments", Json.obj [])]⟩] := by
  refine ⟨rfl, rfl, rfl, ?_, ?_⟩
  · simpa [versionArgs, pyTruthyStrOpt] using migration_up_calls oracle e none
  · simpa [versionArgs, pyTruthyStrOpt] using migration_down_calls oracle e none
